/-
Verification development for the snbatch orchestration engine.

Shallow embedding of the core pure logic:
  * src/utils/version.js        — semver parsing, comparison, upgrade magnitude
  * src/utils/retry.js          — withRetry's Retry-After wait computation
  * src/api/cicd.js             — status normalization (isProgressSuccess) and the
                                  pollProgress loop's per-cycle fault handling
  * src/commands/install.js     — sequential/batch outcome aggregation, halt policy,
                                  exit-status mapping, rollback-token history records
  * src/commands/preview.js     — reconcilePackages
  * src/models/manifest.js      — buildManifest / computeStats

Modelling conventions: JavaScript numbers that hold status codes, percentages and
waits are embedded as Int/Nat (the code only ever compares them to integers); NaN
is represented by Option.none where it can arise (parseInt results, the NaN wait in
withRetry).  `undefined`/`null` object fields are Option.none.  JS string
lower-casing is embedded as ASCII lower-casing (all statuses compared against are
ASCII).  Array.prototype.sort with a comparator is embedded as a stable sort.
-/
import Mathlib

namespace Snbatch

/-! ## JavaScript primitive helpers -/

/-- Whitespace characters skipped by JavaScript parseInt. -/
def jsWhitespace : List Char := [' ', '\t', '\n', '\r', Char.ofNat 11, Char.ofNat 12]

def isJsDigit (c : Char) : Bool := '0' ≤ c && c ≤ '9'

def digitVal (c : Char) : Nat := c.toNat - '0'.toNat

def digitsVal (cs : List Char) : Nat := cs.foldl (fun acc c => acc * 10 + digitVal c) 0

/-- Core of parseInt(s, 10) after the sign: longest digit prefix, none when empty (NaN). -/
def parseDigits (ds : List Char) (sign : Int) : Option Int :=
  let digits := ds.takeWhile isJsDigit
  if digits.isEmpty then none else some (sign * (digitsVal digits : Int))

/-- Model of JavaScript parseInt(s, 10): skip leading whitespace, optional sign,
longest decimal-digit prefix; `none` is NaN. -/
def jsParseIntChars (cs : List Char) : Option Int :=
  match cs.dropWhile (fun c => jsWhitespace.contains c) with
  | '+' :: rest => parseDigits rest 1
  | '-' :: rest => parseDigits rest (-1)
  | rest => parseDigits rest 1

def jsParseInt (s : String) : Option Int := jsParseIntChars s.data

def asciiLower (c : Char) : Char :=
  if 'A' ≤ c && c ≤ 'Z' then Char.ofNat (c.toNat + 32) else c

/-- Model of String.prototype.toLowerCase restricted to ASCII. -/
def jsToLower (s : String) : String := ⟨s.data.map asciiLower⟩

/-- Truthiness of a JS string-or-undefined value: undefined/null and "" are falsy. -/
def jsTruthyStr : Option String → Bool
  | none => false
  | some s => !s.data.isEmpty

/-- Model of the JS `??` (nullish coalescing) operator over optional fields. -/
def jsCoalesce : Option α → Option α → Option α
  | some x, _ => some x
  | none, y => y

/-! ## src/utils/version.js -/

/-- Split a character list on '.' (String.prototype.split('.')). -/
def splitDot : List Char → List (List Char)
  | [] => [[]]
  | c :: rest =>
    if c = '.' then [] :: splitDot rest
    else
      match splitDot rest with
      | [] => [[c]]
      | g :: gs => (c :: g) :: gs

/-- parse(v): split on '.', keep the first three parts, each `parseInt(n, 10) || 0`. -/
def parse (v : String) : List Int :=
  ((splitDot v.data).take 3).map (fun part => (jsParseIntChars part).getD 0)

/-- One comparison step of compareVersions: JS comparisons against `undefined`
(an index past the end) are false, so such a step decides nothing. -/
def cmpAt (pa pb : List Int) (i : Nat) : Int :=
  match pa[i]?, pb[i]? with
  | some x, some y => if x < y then -1 else if y < x then 1 else 0
  | _, _ => 0

def compareVersions (a b : String) : Int :=
  let pa := parse a
  let pb := parse b
  let c0 := cmpAt pa pb 0
  if c0 ≠ 0 then c0
  else
    let c1 := cmpAt pa pb 1
    if c1 ≠ 0 then c1
    else cmpAt pa pb 2

def isUpgrade (fromV toV : String) : Bool := compareVersions fromV toV == -1

/-- JS `>` on two possibly-undefined numbers: false when either is undefined. -/
def optGtInt : Option Int → Option Int → Bool
  | some a, some b => b < a
  | _, _ => false

def upgradeType (fromV toV : String) : String :=
  let pa := parse fromV
  let pb := parse toV
  if !isUpgrade fromV toV then "none"
  else if optGtInt pb[0]? pa[0]? then "major"
  else if optGtInt pb[1]? pa[1]? then "minor"
  else "patch"

/-! ## src/api/cicd.js — status normalization -/

/-- A JS value that can appear in the `status`/`state` field of a poll payload. -/
inductive JSVal where
  | num (n : Int)
  | str (s : String)
deriving DecidableEq

/-- Relevant fields of one progress poll payload; absent fields are none. -/
structure ProgressData where
  status : Option JSVal := none
  state : Option JSVal := none
  percentComplete : Option Int := none
  percent_complete : Option Int := none
  status_message : Option String := none
deriving DecidableEq

/-- `data.status ?? data.state`. -/
def rawStatus (d : ProgressData) : Option JSVal := jsCoalesce d.status d.state

/-- JS String() conversion of a status value. -/
def jsValString : JSVal → String
  | .num n => toString n
  | .str s => s

/-- `typeof raw === 'number' ? raw : parseInt(raw, 10)`; parseInt(undefined) is NaN. -/
def statusNumOf (d : ProgressData) : Option Int :=
  match rawStatus d with
  | some (.num n) => some n
  | some (.str s) => jsParseInt s
  | none => none

/-- `String(raw ?? '').toLowerCase()`. -/
def statusStrOf (d : ProgressData) : String :=
  jsToLower (match rawStatus d with
    | some v => jsValString v
    | none => "")

/-- isProgressSuccess from src/api/cicd.js. -/
def isProgressSuccess : Option ProgressData → Bool
  | none => false
  | some d =>
    if statusNumOf d == some 2 then true
    else if statusNumOf d == some 3 then false
    else statusStrOf d == "success" || statusStrOf d == "complete"

/-- `data.percentComplete ?? data.percent_complete ?? 0`. -/
def pctOf (d : ProgressData) : Int :=
  (jsCoalesce d.percentComplete d.percent_complete).getD 0

/-- Terminal test of one pollProgress cycle (the three `return` conditions). -/
def pollTerminal (d : ProgressData) : Bool :=
  statusNumOf d == some 2 || statusNumOf d == some 3
    || statusStrOf d == "complete" || statusStrOf d == "success" || statusStrOf d == "failed"
    || decide (100 ≤ pctOf d)

/-! ## Retry-After wait computations -/

/-- Rate-limited wait of the pollProgress loop (src/api/cicd.js):
`(!isNaN(parsed) && parsed > 0) ? parsed * 1000 : 30_000`. -/
def rateLimitInterval (retryAfter : Option String) : Nat :=
  let parsed := match retryAfter with
    | some s => jsParseInt s
    | none => none
  match parsed with
  | some p => if 0 < p then (p * 1000).toNat else 30000
  | none => 30000

/-- Rate-limited wait of withRetry (src/utils/retry.js):
`retryAfter ? parseInt(retryAfter, 10) * 1000 : 30_000`.  `none` is NaN. -/
def withRetryWait429 (retryAfter : Option String) : Option Int :=
  if jsTruthyStr retryAfter then (jsParseInt (retryAfter.getD "")).map (fun p => p * 1000)
  else some 30000

/-- Delay actually applied by setTimeout: NaN and negative delays clamp to 0. -/
def jsSetTimeoutDelay : Option Int → Nat
  | none => 0
  | some n => n.toNat

/-! ## src/api/cicd.js — poll state machine -/

structure PollCfg where
  retries : Nat := 3
  backoffBase : Nat := 2000
  pollInterval : Nat := 10000
deriving DecidableEq

/-- One response of the progress endpoint: a payload, or an HTTP error whose
status may be absent (network failure) and that may carry a retry-after header. -/
inductive PollResp where
  | ok (d : ProgressData)
  | err (httpStatus : Option Int) (retryAfter : Option String)
deriving DecidableEq

structure PollState where
  consecutiveErrors : Nat
  interval : Nat
deriving DecidableEq

/-- Outcome of one cycle of the pollProgress while-loop. -/
inductive PollStepResult where
  | backoff (wait : Nat) (next : PollState)
  | snapshot (d : ProgressData) (terminal : Bool) (next : PollState)
  | fail (httpStatus : Option Int)
deriving DecidableEq

/-- `[500, 502, 503, 504].includes(status)`. -/
def transientStatus (st : Option Int) : Bool :=
  st == some 500 || st == some 502 || st == some 503 || st == some 504

/-- One cycle of pollProgress (src/api/cicd.js lines 151-192): the catch branches
for 429 and transient errors, the throw, and the yield with terminal test. -/
def pollStep (cfg : PollCfg) (s : PollState) (r : PollResp) : PollStepResult :=
  match r with
  | .err st retryAfter =>
    if st == some 429 then
      let newInterval := rateLimitInterval retryAfter
      .backoff newInterval { consecutiveErrors := s.consecutiveErrors, interval := newInterval }
    else if transientStatus st && decide (s.consecutiveErrors < cfg.retries) then
      let n := s.consecutiveErrors + 1
      .backoff (cfg.backoffBase * 2 ^ (n - 1)) { consecutiveErrors := n, interval := s.interval }
    else .fail st
  | .ok d =>
    if pollTerminal d then .snapshot d true { consecutiveErrors := 0, interval := s.interval }
    else .snapshot d false { consecutiveErrors := 0, interval := cfg.pollInterval }

inductive PollEnd where
  | finished
  | errored (httpStatus : Option Int)
  | exhausted
deriving DecidableEq

/-- Run of the poll generator over a list of responses (the global deadline is not
modelled; the run ends `exhausted` when the response list runs out first).
Returns the yielded snapshots and how the generator ended. -/
def pollRun (cfg : PollCfg) : PollState → List PollResp → List ProgressData × PollEnd
  | _, [] => ([], .exhausted)
  | s, r :: rest =>
    match pollStep cfg s r with
    | .backoff _ s2 => pollRun cfg s2 rest
    | .snapshot d true _ => ([d], .finished)
    | .snapshot d false s2 =>
      let t := pollRun cfg s2 rest
      (d :: t.1, t.2)
    | .fail st => ([], .errored st)

/-! ## src/commands/install.js — sequential executor and aggregation -/

/-- What happened while driving one package: installApp/poll threw, or the poll
loop completed with a final snapshot (none when nothing was yielded). -/
inductive ItemRun where
  | threw (msg : String)
  | ran (lastData : Option ProgressData)
deriving DecidableEq

structure SeqOpts where
  continueOnError : Bool
  stopOnError : Bool
  isTTY : Bool
deriving DecidableEq

structure SeqAcc where
  succeeded : Nat
  failed : Nat
  processed : Nat
deriving DecidableEq

/-- An item counts as failed when its submit/poll threw or its final snapshot
does not classify as success. -/
def itemFails : ItemRun → Bool
  | .threw _ => true
  | .ran d => !isProgressSuccess d

/-- Loop body of runSequentialInstall: per item classify, count, and on failure
apply the continuation policy (halt on stop-on-error or non-TTY, else prompt). -/
def runSeqGo (opts : SeqOpts) (prompt : Nat → Bool) (total : Nat) :
    Nat → List ItemRun → SeqAcc → SeqAcc
  | _, [], acc => acc
  | i, r :: rest, acc =>
    let failedAcc : SeqAcc :=
      { acc with failed := acc.failed + 1, processed := acc.processed + 1 }
    let haltCheck : SeqAcc → SeqAcc := fun fa =>
      if !opts.continueOnError && decide (i < total - 1) then
        if opts.stopOnError || !opts.isTTY then fa
        else if prompt i then runSeqGo opts prompt total (i + 1) rest fa
        else fa
      else runSeqGo opts prompt total (i + 1) rest fa
    match r with
    | .ran d =>
      if isProgressSuccess d then
        runSeqGo opts prompt total (i + 1) rest
          { acc with succeeded := acc.succeeded + 1, processed := acc.processed + 1 }
      else haltCheck failedAcc
    | .threw _ => haltCheck failedAcc

def runSequentialInstall (runs : List ItemRun) (opts : SeqOpts) (prompt : Nat → Bool) : SeqAcc :=
  runSeqGo opts prompt runs.length 0 runs ⟨0, 0, 0⟩

/-- `failed === 0 ? 'success' : succeeded === 0 ? 'failed' : 'partial'` —
identical in the sequential and batch history records. -/
def aggregateResult (succeeded failed : Nat) : String :=
  if failed = 0 then "success" else if succeeded = 0 then "failed" else "partial"

/-- Exit status of the sequential path of installCommand. -/
def sequentialExitCode (succeeded failed : Nat) : Nat :=
  if 0 < failed ∧ 0 < succeeded then 1
  else if 0 < failed ∧ succeeded = 0 then 2
  else 0

/-- Exit status of runBatchInstall. -/
def batchExitCode (succeeded failed : Nat) : Nat :=
  if 0 < failed ∧ 0 < succeeded then 1
  else if 0 < failed then 2
  else 0

/-! ## Package items and target apps -/

/-- One package of a manifest (the fields the embedded functions touch). -/
structure PackageItem where
  scope : String
  name : String
  currentVersion : String
  targetVersion : String
  upgradeType : Option String := none
  packageType : Option String := none
deriving DecidableEq

/-- One installed app/plugin on the target environment. -/
structure TargetApp where
  scope : String
  name : String
  version : String
  type : Option String := none
deriving DecidableEq

/-! ## src/commands/preview.js — reconcilePackages -/

/-- One reconcile result: the spread source package plus the verdict fields. -/
structure ReconcileEntry where
  pkg : PackageItem
  targetCurrentVersion : Option String
  action : String
  reason : String
deriving DecidableEq

/-- Map.prototype.set: replace in place when the key exists, else append
(JS Maps keep first-insertion order and last-set value). -/
def mapSet (m : List (String × TargetApp)) (k : String) (v : TargetApp) :
    List (String × TargetApp) :=
  if m.any (fun e => e.1 = k) then m.map (fun e => if e.1 = k then (k, v) else e)
  else m ++ [(k, v)]

/-- `new Map(targetApps.map((a) => [a.scope, a]))`. -/
def buildTargetMap (ts : List TargetApp) : List (String × TargetApp) :=
  ts.foldl (fun m a => mapSet m a.scope a) []

def mapGet (m : List (String × TargetApp)) (k : String) : Option TargetApp :=
  (m.find? (fun e => e.1 = k)).map (fun e => e.2)

/-- Verdict of the first reconcile loop for one manifest package. -/
def reconcileOne (pkg : PackageItem) (target : Option TargetApp) : ReconcileEntry :=
  match target with
  | none => ⟨pkg, none, "skip", "not_installed"⟩
  | some t =>
    let cmp := compareVersions t.version pkg.targetVersion
    if cmp = 0 then ⟨pkg, some t.version, "skip", "already_current"⟩
    else if cmp < 0 then
      ⟨pkg, some t.version, "include",
        if t.version ≠ pkg.currentVersion then "version_mismatch" else "matched"⟩
    else ⟨pkg, some t.version, "skip", "target_ahead"⟩

/-- Entry pushed by the second reconcile loop for a target scope missing from
the manifest. -/
def extraEntry (scope : String) (t : TargetApp) : ReconcileEntry :=
  ⟨⟨scope, t.name, t.version, t.version, none, some (t.type.getD "app")⟩,
    some t.version, "extra", "extra_available"⟩

/-- reconcilePackages from src/commands/preview.js: the per-package loop followed
by the extra-on-target loop over the target map. -/
def reconcilePackages (manifestPackages : List PackageItem) (targetApps : List TargetApp) :
    List ReconcileEntry :=
  let targetMap := buildTargetMap targetApps
  let manifestScopes := manifestPackages.map (fun p => p.scope)
  manifestPackages.map (fun p => reconcileOne p (mapGet targetMap p.scope))
    ++ (targetMap.filter (fun e => !manifestScopes.contains e.1)).map
        (fun e => extraEntry e.1 e.2)

/-! ## src/models/manifest.js -/

/-- Upgrade-type counts of computeStats; the JS object's `none` key is noneCount. -/
structure Stats where
  total : Nat
  patch : Nat
  minor : Nat
  major : Nat
  noneCount : Nat
deriving DecidableEq

/-- `if (t in stats) stats[t]++` — only the five own keys are bumped. -/
def statsBump (s : Stats) (t : String) : Stats :=
  if t = "total" then { s with total := s.total + 1 }
  else if t = "patch" then { s with patch := s.patch + 1 }
  else if t = "minor" then { s with minor := s.minor + 1 }
  else if t = "major" then { s with major := s.major + 1 }
  else if t = "none" then { s with noneCount := s.noneCount + 1 }
  else s

def computeStats (packages : List PackageItem) : Stats :=
  packages.foldl (fun st p => statsBump st (p.upgradeType.getD "none"))
    { total := packages.length, patch := 0, minor := 0, major := 0, noneCount := 0 }

/-- Sort order of buildManifest: `a.scope.localeCompare(b.scope)`, embedded as
code-unit order on the scope characters (scopes are ASCII identifiers). -/
def scopeLe (a b : PackageItem) : Prop := a.scope.data ≤ b.scope.data

instance : DecidableRel scopeLe :=
  fun a b => inferInstanceAs (Decidable (a.scope.data ≤ b.scope.data))

instance : IsTotal PackageItem scopeLe := ⟨fun a b => le_total a.scope.data b.scope.data⟩

instance : IsTrans PackageItem scopeLe := ⟨fun _ _ _ h1 h2 => le_trans h1 h2⟩

/-- Strict scope order, used to state that a scope-sorted list with pairwise
distinct scopes is unique among permutations. -/
def scopeLt (a b : PackageItem) : Prop := a.scope.data < b.scope.data

instance : IsAntisymm PackageItem scopeLt :=
  ⟨fun _ _ h1 h2 => absurd (lt_trans h1 h2) (lt_irrefl _)⟩

/-- `[...packages].sort((a, b) => a.scope.localeCompare(b.scope))` — a stable
sort by scope, embedded as insertion sort. -/
def sortByScope (ps : List PackageItem) : List PackageItem :=
  List.insertionSort scopeLe ps

structure ManifestMeta where
  createdAt : String
  instanceUrl : String
  instanceVersion : String
  profile : Option String
  snbatchVersion : String
deriving DecidableEq

structure Manifest where
  manifestVersion : Nat
  metadata : ManifestMeta
  packages : List PackageItem
  stats : Stats
deriving DecidableEq

/-- buildManifest from src/models/manifest.js; `new Date().toISOString()` is the
explicit createdAt argument. -/
def buildManifest (packages : List PackageItem) (instanceUrl : String)
    (profileName : Option String) (instanceVersion : String) (snbatchVersion : String)
    (createdAt : String) : Manifest :=
  let sorted := sortByScope packages
  { manifestVersion := 1
    metadata :=
      { createdAt := createdAt, instanceUrl := instanceUrl,
        instanceVersion := instanceVersion, profile := profileName,
        snbatchVersion := snbatchVersion }
    packages := sorted
    stats := computeStats sorted }

/-! ## src/utils/crypto.js — hashRollbackToken (SHA-256 over UTF-8 bytes) -/

def w32 (n : Nat) : Nat := n % 4294967296

/-- Right rotation of a 32-bit word given as a Nat below 2^32. -/
def rotr32 (n x : Nat) : Nat := (x % 2 ^ n) * 2 ^ (32 - n) + x / 2 ^ n

def not32 (x : Nat) : Nat := 4294967295 - x

def ssig0 (x : Nat) : Nat := rotr32 7 x ^^^ rotr32 18 x ^^^ x / 2 ^ 3

def ssig1 (x : Nat) : Nat := rotr32 17 x ^^^ rotr32 19 x ^^^ x / 2 ^ 10

def bsig0 (x : Nat) : Nat := rotr32 2 x ^^^ rotr32 13 x ^^^ rotr32 22 x

def bsig1 (x : Nat) : Nat := rotr32 6 x ^^^ rotr32 11 x ^^^ rotr32 25 x

def chFn (x y z : Nat) : Nat := (x &&& y) ^^^ (not32 x &&& z)

def majFn (x y z : Nat) : Nat := (x &&& y) ^^^ (x &&& z) ^^^ (y &&& z)

def sha256K : List Nat :=
  [1116352408, 1899447441, 3049323471, 3921009573, 961987163,
   1508970993, 2453635748, 2870763221, 3624381080, 310598401,
   607225278, 1426881987, 1925078388, 2162078206, 2614888103,
   3248222580, 3835390401, 4022224774, 264347078, 604807628,
   770255983, 1249150122, 1555081692, 1996064986, 2554220882,
   2821834349, 2952996808, 3210313671, 3336571891, 3584528711,
   113926993, 338241895, 666307205, 773529912, 1294757372,
   1396182291, 1695183700, 1986661051, 2177026350, 2456956037,
   2730485921, 2820302411, 3259730800, 3345764771, 3516065817,
   3600352804, 4094571909, 275423344, 430227734, 506948616,
   659060556, 883997877, 958139571, 1322822218, 1537002063,
   1747873779, 1955562222, 2024104815, 2227730452, 2361852424,
   2428436474, 2756734187, 3204031479, 3329325298]

def sha256Init : List Nat :=
  [1779033703, 3144134277, 1013904242, 2773480762,
   1359893119, 2600822924, 528734635, 1541459225]

def bigEndianBytes : Nat → Nat → List Nat
  | 0, _ => []
  | k + 1, n => bigEndianBytes k (n / 256) ++ [n % 256]

/-- SHA-256 padding: append 0x80, zeros to 56 mod 64, then the 64-bit bit length. -/
def sha256Pad (msg : List Nat) : List Nat :=
  let len := msg.length
  let padZeros := (55 + 64 - len % 64) % 64
  msg ++ [0x80] ++ List.replicate padZeros 0 ++ bigEndianBytes 8 (len * 8)

def chunksGo : Nat → List Nat → List (List Nat)
  | _, [] => []
  | 0, _ => []
  | fuel + 1, l => l.take 64 :: chunksGo fuel (l.drop 64)

def chunk64 (l : List Nat) : List (List Nat) := chunksGo l.length l

def toWords : List Nat → List Nat
  | b0 :: b1 :: b2 :: b3 :: rest =>
    (((b0 * 256 + b1) * 256 + b2) * 256 + b3) :: toWords rest
  | _ => []

/-- Message-schedule extension: append W[i] for the next index. -/
def schedExt (w : List Nat) : List Nat :=
  w ++ [w32 (ssig1 (w.getD (w.length - 2) 0) + w.getD (w.length - 7) 0
    + ssig0 (w.getD (w.length - 15) 0) + w.getD (w.length - 16) 0)]

def iterN (f : α → α) : Nat → α → α
  | 0, a => a
  | k + 1, a => iterN f k (f a)

def schedule (w16 : List Nat) : List Nat := iterN schedExt 48 w16

/-- One round of the SHA-256 compression function on the 8-word state. -/
def compressStep (st : List Nat) (kw : Nat × Nat) : List Nat :=
  match st with
  | [a, b, c, d, e, f, g, h] =>
    let t1 := w32 (h + bsig1 e + chFn e f g + kw.1 + kw.2)
    let t2 := w32 (bsig0 a + majFn a b c)
    [w32 (t1 + t2), a, b, c, w32 (d + t1), e, f, g]
  | other => other

def compressBlock (h0 : List Nat) (block : List Nat) : List Nat :=
  let w := schedule (toWords block)
  let st := (sha256K.zip w).foldl compressStep h0
  (h0.zip st).map (fun p => w32 (p.1 + p.2))

def sha256Words (msg : List Nat) : List Nat :=
  (chunk64 (sha256Pad msg)).foldl compressBlock sha256Init

def hexDigit (n : Nat) : Char :=
  if n < 10 then Char.ofNat ('0'.toNat + n) else Char.ofNat ('a'.toNat + (n - 10))

def hex8 (n : Nat) : List Char :=
  (List.range 8).map (fun i => hexDigit (n / 16 ^ (7 - i) % 16))

def sha256Hex (msg : List Nat) : String := ⟨((sha256Words msg).map hex8).flatten⟩

def utf8EncodeChar (c : Char) : List Nat :=
  let n := c.toNat
  if n < 0x80 then [n]
  else if n < 0x800 then [0xC0 + n / 64, 0x80 + n % 64]
  else if n < 0x10000 then [0xE0 + n / 4096, 0x80 + n / 64 % 64, 0x80 + n % 64]
  else [0xF0 + n / 262144, 0x80 + n / 4096 % 64, 0x80 + n / 64 % 64, 0x80 + n % 64]

def utf8Encode (s : String) : List Nat := (s.data.map utf8EncodeChar).flatten

/-- hashRollbackToken from src/utils/crypto.js: SHA-256 hex digest of the token. -/
def hashRollbackToken (token : String) : String := sha256Hex (utf8Encode token)

/-! ## src/commands/install.js — batch history and log records -/

/-- Display hint shown for a rollback token: `...${rollbackToken.slice(-4)}`. -/
def tokenHintOf (t : String) : String := "..." ++ ⟨t.data.drop (t.data.length - 4)⟩

/-- `rollbackToken ? hashRollbackToken(rollbackToken) : null`. -/
def rollbackHashOf (token : Option String) : Option String :=
  if jsTruthyStr token then some (hashRollbackToken (token.getD "")) else none

/-- `rollbackToken ? ('...' + rollbackToken.slice(-4)) : null`. -/
def rollbackHintOf (token : Option String) : Option String :=
  if jsTruthyStr token then some (tokenHintOf (token.getD "")) else none

structure HistoryPackage where
  scope : String
  fromV : String
  toV : String
deriving DecidableEq

/-- The batch history entry appended by runBatchInstall. -/
structure BatchHistoryEntry where
  id : String
  timestamp : String
  instanceUrl : String
  instanceHost : String
  profile : Option String
  action : String
  mode : String
  packages : List HistoryPackage
  result : String
  progressId : String
  rollbackTokenHash : Option String
  rollbackTokenHint : Option String
deriving DecidableEq

def batchHistoryEntry (id timestamp instanceUrl instanceHost : String)
    (profile : Option String) (packages : List PackageItem) (succeeded failed : Nat)
    (progressId : String) (rollbackToken : Option String) : BatchHistoryEntry :=
  { id := id, timestamp := timestamp, instanceUrl := instanceUrl,
    instanceHost := instanceHost, profile := profile,
    action := "install", mode := "batch",
    packages := packages.map (fun p => ⟨p.scope, p.currentVersion, p.targetVersion⟩),
    result := aggregateResult succeeded failed,
    progressId := progressId,
    rollbackTokenHash := rollbackHashOf rollbackToken,
    rollbackTokenHint := rollbackHintOf rollbackToken }

/-- The entry with its two token-derived fields blanked, used to state that all
remaining fields are independent of the token. -/
def eraseRollbackFields (e : BatchHistoryEntry) : BatchHistoryEntry :=
  { e with rollbackTokenHash := none, rollbackTokenHint := none }

/-- One structured logger record of runBatchInstall that is token-adjacent. -/
structure BatchLogRecord where
  message : String
  progressId : Option String
  rollbackTokenHint : Option String
  resultsId : Option String
  scopes : List String
  succeeded : Option Nat
  failed : Option Nat
deriving DecidableEq

/-- The two logger.info records of runBatchInstall that mention the token:
only the last-4 display hint is ever passed. -/
def batchLogRecords (progressId : String) (resultsId : Option String)
    (packages : List PackageItem) (succeeded failed : Nat)
    (rollbackToken : Option String) : List BatchLogRecord :=
  [{ message := "Batch install started", progressId := some progressId,
     rollbackTokenHint := rollbackHintOf rollbackToken, resultsId := resultsId,
     scopes := packages.map (fun p => p.scope), succeeded := none, failed := none },
   { message := "Batch install complete", progressId := none,
     rollbackTokenHint := rollbackHintOf rollbackToken, resultsId := none,
     scopes := [], succeeded := some succeeded, failed := some failed }]

def eraseLogHints (rs : List BatchLogRecord) : List BatchLogRecord :=
  rs.map (fun r => { r with rollbackTokenHint := none })

/-! ## Theorems -/

/-- C8: upgrade-magnitude classification is total and pure: for all version
strings (a, b), upgradeType returns exactly one of none, patch, minor or major,
and it returns none whenever b is not strictly greater than a under the
semantic version comparison (compareVersions a b = -1 means strictly greater). -/
theorem upgradeType_total_and_none (a b : String) :
    (upgradeType a b = "none" ∨ upgradeType a b = "patch" ∨ upgradeType a b = "minor"
      ∨ upgradeType a b = "major")
    ∧ (compareVersions a b ≠ -1 → upgradeType a b = "none") := by
  constructor
  · cases hu : isUpgrade a b with
    | false => exact Or.inl (by simp [upgradeType, hu])
    | true =>
      cases hmaj : optGtInt (parse b)[0]? (parse a)[0]? with
      | true => exact Or.inr (Or.inr (Or.inr (by simp [upgradeType, hu, hmaj])))
      | false =>
        cases hmin : optGtInt (parse b)[1]? (parse a)[1]? with
        | true => exact Or.inr (Or.inr (Or.inl (by simp [upgradeType, hu, hmaj, hmin])))
        | false => exact Or.inr (Or.inl (by simp [upgradeType, hu, hmaj, hmin]))
  · intro h
    have hup : isUpgrade a b = false := by
      unfold isUpgrade
      simpa using h
    simp [upgradeType, hup]

/-- C8 witness: at ("1.0.0", "1.0.0") the hypothesis of the second conjunct is
satisfied and the classification is "none". -/
theorem upgradeType_total_and_none_witness :
    upgradeType "1.0.0" "1.0.0" = "none" :=
  (upgradeType_total_and_none "1.0.0" "1.0.0").2 (by decide)

/-- C1: the claim fails on src/utils/retry.js.  withRetry's 429 wait is
`retryAfter ? parseInt(retryAfter, 10) * 1000 : 30_000`, so a non-numeric
Retry-After header ("garbage") yields NaN and setTimeout fires after ~0 ms, a
"0" header yields a 0 ms wait and a negative header a clamped-to-0 wait — all
violating the 30-second fallback the claim (and the repo's own P2-1 unit test)
requires.  The poll loop's rate-limited branch in src/api/cicd.js does guard
correctly: its wait is 30 s on absent/non-numeric/non-positive hints and is
always positive. -/
theorem withRetry_retryAfter_fallback_violated :
    withRetryWait429 (some "garbage") = none
    ∧ jsSetTimeoutDelay (withRetryWait429 (some "garbage")) = 0
    ∧ jsSetTimeoutDelay (withRetryWait429 (some "0")) = 0
    ∧ jsSetTimeoutDelay (withRetryWait429 (some "-5")) = 0
    ∧ jsSetTimeoutDelay (withRetryWait429 none) = 30000
    ∧ jsSetTimeoutDelay (withRetryWait429 (some "7")) = 7000
    ∧ rateLimitInterval (some "garbage") = 30000
    ∧ rateLimitInterval (some "0") = 30000
    ∧ rateLimitInterval (some "-5") = 30000
    ∧ rateLimitInterval none = 30000
    ∧ rateLimitInterval (some "7") = 7000 := by
  repeat constructor <;> decide

/-- C3 counterexample: a run where every item executed and failed (succeeded = 0,
failed = 1) is recorded with the three-way outcome "failed" yet exits with
status 2 in both modes — so exit status 2 is not reserved for fatal
could-not-execute errors, refuting the claim's exit-status mapping. -/
theorem exitCode_two_for_all_failed :
    aggregateResult 0 1 = "failed"
    ∧ sequentialExitCode 0 1 = 2
    ∧ batchExitCode 0 1 = 2 := by
  refine ⟨rfl, ?_, ?_⟩ <;> decide

/-- C3 amended: for every run with at least one item outcome, the recorded
aggregate is success exactly when there are zero failures, failed exactly when
there are zero successes, and partial otherwise; both modes map this result to
the exit status identically: 0 = success, 1 = partial, and 2 = all items failed
(exit 2 is additionally used by the fatal catch-all path, not modelled here). -/
theorem aggregate_and_exit_mapping (s f : Nat) (h : 0 < s + f) :
    (aggregateResult s f = "success" ↔ f = 0)
    ∧ (aggregateResult s f = "failed" ↔ s = 0 ∧ 0 < f)
    ∧ (aggregateResult s f = "partial" ↔ 0 < s ∧ 0 < f)
    ∧ sequentialExitCode s f = batchExitCode s f
    ∧ (sequentialExitCode s f = 0 ↔ aggregateResult s f = "success")
    ∧ (sequentialExitCode s f = 1 ↔ aggregateResult s f = "partial")
    ∧ (sequentialExitCode s f = 2 ↔ aggregateResult s f = "failed") := by
  unfold aggregateResult sequentialExitCode batchExitCode
  rcases Nat.eq_zero_or_pos f with hf | hf <;> rcases Nat.eq_zero_or_pos s with hs | hs
  · omega
  · subst hf
    simp [hs.ne', hs]
  · subst hs
    simp [hf.ne', hf]
  · simp [hf.ne', hs.ne', hf, hs]

/-- C3 amended witness: at one success and one failure the outcome is partial
and the exit status is 1 in both modes. -/
theorem aggregate_and_exit_mapping_witness :
    aggregateResult 1 1 = "partial" ∧ sequentialExitCode 1 1 = 1 :=
  ⟨((aggregate_and_exit_mapping 1 1 (by decide)).2.2.1).2 (by decide),
   ((aggregate_and_exit_mapping 1 1 (by decide)).2.2.2.2.2.1).2
     (((aggregate_and_exit_mapping 1 1 (by decide)).2.2.1).2 (by decide))⟩

/-- C2: status normalization is uniform across both encodings.  A status that
normalizes to numeric 2 is a terminal success and one that normalizes to 3 a
terminal failure regardless of any string reading (numeric precedence); a
non-numeric status lower-casing to "success"/"complete" is terminal success and
"failed" terminal failure; percent-complete ≥ 100 is terminal even with no
recognized status; and the poll loop stops immediately after yielding any
terminal snapshot. -/
theorem pollNormalization_uniform_and_terminal (d : ProgressData) (cfg : PollCfg)
    (s : PollState) (rest : List PollResp) :
    (statusNumOf d = some 2 → isProgressSuccess (some d) = true ∧ pollTerminal d = true)
    ∧ (statusNumOf d = some 3 → isProgressSuccess (some d) = false ∧ pollTerminal d = true)
    ∧ (statusNumOf d = none → statusStrOf d = "success" ∨ statusStrOf d = "complete" →
        isProgressSuccess (some d) = true ∧ pollTerminal d = true)
    ∧ (statusNumOf d = none → statusStrOf d = "failed" →
        isProgressSuccess (some d) = false ∧ pollTerminal d = true)
    ∧ (100 ≤ pctOf d → pollTerminal d = true)
    ∧ (pollTerminal d = true → pollRun cfg s (.ok d :: rest) = ([d], .finished)) := by
  refine ⟨?_, ?_, ?_, ?_, ?_, ?_⟩
  · intro h
    constructor
    · simp [isProgressSuccess, h]
    · simp [pollTerminal, h]
  · intro h
    constructor
    · simp [isProgressSuccess, h]
    · simp [pollTerminal, h]
  · intro hn hs
    rcases hs with hs | hs <;>
      exact ⟨by simp [isProgressSuccess, hn, hs], by simp [pollTerminal, hn, hs]⟩
  · intro hn hs
    constructor
    · simp [isProgressSuccess, hn, hs]
    · simp [pollTerminal, hn, hs]
  · intro h
    simp [pollTerminal, h]
  · intro h
    simp [pollRun, pollStep, h]

/-- C2 witness: concrete payloads exercising every hypothesis — numeric 2/3,
strings "SUCCESS" and "failed", and a bare percent-complete of 100. -/
theorem pollNormalization_uniform_and_terminal_witness :
    (isProgressSuccess (some { status := some (.num 2) }) = true
      ∧ pollTerminal { status := some (.num 2) } = true)
    ∧ (isProgressSuccess (some { state := some (.num 3) }) = false
      ∧ pollTerminal { state := some (.num 3) } = true)
    ∧ (isProgressSuccess (some { status := some (.str "SUCCESS") }) = true
      ∧ pollTerminal { status := some (.str "SUCCESS") } = true)
    ∧ (isProgressSuccess (some { status := some (.str "failed") }) = false
      ∧ pollTerminal { status := some (.str "failed") } = true)
    ∧ pollTerminal { percent_complete := some 100 } = true
    ∧ pollRun {} ⟨0, 10000⟩ [.ok { status := some (.num 2) }, .ok {}]
        = ([{ status := some (.num 2) }], .finished) :=
  ⟨(pollNormalization_uniform_and_terminal { status := some (.num 2) } {} ⟨0, 10000⟩ []).1
      (by decide),
   (pollNormalization_uniform_and_terminal { state := some (.num 3) } {} ⟨0, 10000⟩ []).2.1
      (by decide),
   (pollNormalization_uniform_and_terminal { status := some (.str "SUCCESS") } {}
      ⟨0, 10000⟩ []).2.2.1 (by decide) (Or.inl (by decide)),
   (pollNormalization_uniform_and_terminal { status := some (.str "failed") } {}
      ⟨0, 10000⟩ []).2.2.2.1 (by decide) (by decide),
   (pollNormalization_uniform_and_terminal { percent_complete := some 100 } {}
      ⟨0, 10000⟩ []).2.2.2.2.1 (by decide),
   (pollNormalization_uniform_and_terminal { status := some (.num 2) } {}
      ⟨0, 10000⟩ [.ok {}]).2.2.2.2.2 (by decide)⟩

/-- C4: per poll cycle — a 429 backs off (positive wait) and resumes without
touching the consecutive-error counter; a transient 5xx below the retry ceiling
waits backoffBase * 2^errorCount, increments the counter and resumes; a
transient error at/above the ceiling, and any non-retryable error, propagate as
a hard failure yielding no snapshot; a successful check yields a snapshot with
the counter reset to zero. -/
theorem pollStep_fault_handling (cfg : PollCfg) (s : PollState) (ra : Option String)
    (st : Option Int) (d : ProgressData) (rest : List PollResp) :
    (pollStep cfg s (.err (some 429) ra)
        = .backoff (rateLimitInterval ra)
            { consecutiveErrors := s.consecutiveErrors, interval := rateLimitInterval ra }
      ∧ 0 < rateLimitInterval ra)
    ∧ (transientStatus st = true → s.consecutiveErrors < cfg.retries →
        pollStep cfg s (.err st ra)
          = .backoff (cfg.backoffBase * 2 ^ s.consecutiveErrors)
              { consecutiveErrors := s.consecutiveErrors + 1, interval := s.interval })
    ∧ (transientStatus st = true → cfg.retries ≤ s.consecutiveErrors →
        pollStep cfg s (.err st ra) = .fail st
          ∧ pollRun cfg s (.err st ra :: rest) = ([], .errored st))
    ∧ (st ≠ some 429 → transientStatus st = false →
        pollStep cfg s (.err st ra) = .fail st
          ∧ pollRun cfg s (.err st ra :: rest) = ([], .errored st))
    ∧ (∃ iv, pollStep cfg s (.ok d) = .snapshot d (pollTerminal d) ⟨0, iv⟩) := by
  have hpos : 0 < rateLimitInterval ra := by
    unfold rateLimitInterval
    rcases ra with _ | sa
    · simp
    · rcases hp : jsParseInt sa with _ | p
      · simp [hp]
      · rcases lt_or_ge 0 p with h0 | h0
        · simp only [hp, if_pos h0]
          omega
        · simp [hp, not_lt.mpr h0]
  have hne429 : transientStatus st = true → (st == some 429) = false := by
    intro h
    rcases st with _ | n
    · decide
    · have h' : ((n = 500 ∨ n = 502) ∨ n = 503) ∨ n = 504 := by
        simpa [transientStatus] using h
      simp only [beq_eq_false_iff_ne, ne_eq, Option.some.injEq]
      omega
  refine ⟨⟨by simp [pollStep], hpos⟩, ?_, ?_, ?_, ?_⟩
  · intro ht hlt
    simp [pollStep, hne429 ht, ht, hlt]
  · intro ht hge
    have : ¬ s.consecutiveErrors < cfg.retries := not_lt.mpr hge
    constructor
    · simp [pollStep, hne429 ht, ht, this]
    · simp [pollRun, pollStep, hne429 ht, ht, this]
  · intro h429 htr
    have hb : (st == some 429) = false := by simpa using h429
    constructor
    · simp [pollStep, hb, htr]
    · simp [pollRun, pollStep, hb, htr]
  · cases ht : pollTerminal d
    · exact ⟨cfg.pollInterval, by simp [pollStep, ht]⟩
    · exact ⟨s.interval, by simp [pollStep, ht]⟩

/-- C4 witness: with the default configuration and two prior consecutive errors,
a 429 keeps the counter at 2, a 502 below the ceiling backs off 2000 * 2^2 ms
and increments to 3, a 502 at the ceiling and a 403 both propagate, and a
successful check resets the counter to 0. -/
theorem pollStep_fault_handling_witness :
    (pollStep {} ⟨2, 10000⟩ (.err (some 429) (some "garbage"))
        = .backoff 30000 ⟨2, 30000⟩ ∧ 0 < rateLimitInterval (some "garbage"))
    ∧ pollStep {} ⟨2, 10000⟩ (.err (some 502) none) = .backoff 8000 ⟨3, 10000⟩
    ∧ pollStep {} ⟨3, 10000⟩ (.err (some 502) none) = .fail (some 502)
    ∧ pollStep {} ⟨2, 10000⟩ (.err (some 403) none) = .fail (some 403)
    ∧ (∃ iv, pollStep {} ⟨2, 10000⟩ (.ok {}) = .snapshot {} (pollTerminal {}) ⟨0, iv⟩) :=
  ⟨(pollStep_fault_handling {} ⟨2, 10000⟩ (some "garbage") none {} []).1,
   (pollStep_fault_handling {} ⟨2, 10000⟩ none (some 502) {} []).2.1 (by decide) (by decide),
   ((pollStep_fault_handling {} ⟨3, 10000⟩ none (some 502) {} []).2.2.1 (by decide)
      (by decide)).1,
   ((pollStep_fault_handling {} ⟨2, 10000⟩ none (some 403) {} []).2.2.2.1 (by decide)
      (by decide)).1,
   (pollStep_fault_handling {} ⟨2, 10000⟩ none (some 403) {} []).2.2.2.2⟩

/-- Helper: a prefix of items that all classify as successes is processed in
full, incrementing only the success and processed counters. -/
theorem runSeqGo_success_segment (opts : SeqOpts) (prompt : Nat → Bool) (total : Nat) :
    ∀ (pre rest : List ItemRun) (i : Nat) (acc : SeqAcc),
      (∀ r ∈ pre, itemFails r = false) →
      runSeqGo opts prompt total i (pre ++ rest) acc
        = runSeqGo opts prompt total (i + pre.length) rest
            ⟨acc.succeeded + pre.length, acc.failed, acc.processed + pre.length⟩ := by
  intro pre
  induction pre with
  | nil =>
    intro rest i acc _
    simp
  | cons r pre ih =>
    intro rest i acc h
    have hr : itemFails r = false := h r (by simp)
    rcases r with msg | d
    · simp [itemFails] at hr
    · have hs : isProgressSuccess d = true := by simpa [itemFails] using hr
      have hrest : ∀ q ∈ pre, itemFails q = false := fun q hq => h q (by simp [hq])
      simp only [List.cons_append, runSeqGo, hs, if_true, List.append_eq]
      rw [ih rest (i + 1) _ hrest]
      have e1 : i + 1 + pre.length = i + (pre.length + 1) := by omega
      have e2 : acc.succeeded + 1 + pre.length = acc.succeeded + (pre.length + 1) := by omega
      have e3 : acc.processed + 1 + pre.length = acc.processed + (pre.length + 1) := by omega
      simp [e1, e2, e3]

/-- Helper: under the halt policy (no continue-on-error, and stop-on-error or a
non-interactive stderr), a failing item ends the sequence right after being
recorded, whether or not it is the last item. -/
theorem runSeqGo_halt_fail (opts : SeqOpts) (prompt : Nat → Bool) (total : Nat)
    (i : Nat) (x : ItemRun) (rest : List ItemRun) (acc : SeqAcc)
    (hx : itemFails x = true) (hc : opts.continueOnError = false)
    (hh : opts.stopOnError = true ∨ opts.isTTY = false)
    (hrest : rest = [] ∨ i < total - 1) :
    runSeqGo opts prompt total i (x :: rest) acc
      = ⟨acc.succeeded, acc.failed + 1, acc.processed + 1⟩ := by
  have hhb : (opts.stopOnError || !opts.isTTY) = true := by
    rcases hh with h | h <;> simp [h]
  rcases x with msg | d
  · by_cases hi : i < total - 1
    · simp [runSeqGo, hc, hi, hhb]
    · rcases hrest with hr | hr
      · subst hr
        simp [runSeqGo, hc, hi]
      · exact absurd hr hi
  · have hs : isProgressSuccess d = false := by simpa [itemFails] using hx
    by_cases hi : i < total - 1
    · simp [runSeqGo, hs, hc, hi, hhb]
    · rcases hrest with hr | hr
      · subst hr
        simp [runSeqGo, hs, hc, hi]
      · exact absurd hr hi

/-- C6: in sequential mode under the halt policy (stop-on-error, or the
non-interactive default), once an item fails no later item is ever submitted:
after a prefix of successes and one failure the run stops having processed
exactly prefix + 1 items, with prefix successes and 1 failure; when the prefix
is non-empty the recorded aggregate is partial. -/
theorem sequential_halt_on_first_failure (pre post : List ItemRun) (x : ItemRun)
    (opts : SeqOpts) (prompt : Nat → Bool)
    (hc : opts.continueOnError = false)
    (hh : opts.stopOnError = true ∨ opts.isTTY = false)
    (hpre : ∀ r ∈ pre, itemFails r = false)
    (hx : itemFails x = true) :
    runSequentialInstall (pre ++ x :: post) opts prompt = ⟨pre.length, 1, pre.length + 1⟩
    ∧ (pre ≠ [] → aggregateResult pre.length 1 = "partial") := by
  constructor
  · have hside : post = [] ∨ 0 + pre.length < (pre ++ x :: post).length - 1 := by
      rcases post with _ | ⟨p, ps⟩
      · exact Or.inl rfl
      · right
        simp [List.length_append]
    unfold runSequentialInstall
    rw [runSeqGo_success_segment opts prompt _ pre (x :: post) 0 ⟨0, 0, 0⟩ hpre]
    rw [runSeqGo_halt_fail opts prompt _ _ x post _ hx hc hh hside]
    simp
  · intro hne
    have hlen : pre.length ≠ 0 := by
      simpa using hne
    simp [aggregateResult, hlen]

/-- C6 witness: a 3-item plan run with stop-on-error where item 2 fails —
item 3 is never submitted (2 of 3 processed), and the aggregate is partial. -/
theorem sequential_halt_on_first_failure_witness :
    runSequentialInstall
        [.ran (some { status := some (.num 2) }),
         .ran (some { status := some (.num 3) }),
         .ran (some { status := some (.num 2) })]
        ⟨false, true, true⟩ (fun _ => true)
      = ⟨1, 1, 2⟩
    ∧ aggregateResult 1 1 = "partial" := by
  have h := sequential_halt_on_first_failure
    [.ran (some { status := some (.num 2) })]
    [.ran (some { status := some (.num 2) })]
    (.ran (some { status := some (.num 3) }))
    ⟨false, true, true⟩ (fun _ => true) rfl (Or.inl rfl)
    (by decide) (by decide)
  exact ⟨h.1, h.2 (by decide)⟩

/-- Helper: when every item fails, the success counter never moves, whatever
the continuation policy and prompt answers. -/
theorem runSeqGo_no_success (opts : SeqOpts) (prompt : Nat → Bool) (total : Nat) :
    ∀ (runs : List ItemRun) (i : Nat) (acc : SeqAcc),
      (∀ r ∈ runs, itemFails r = true) →
      (runSeqGo opts prompt total i runs acc).succeeded = acc.succeeded := by
  intro runs
  induction runs with
  | nil =>
    intro i acc _
    simp [runSeqGo]
  | cons r rest ih =>
    intro i acc h
    have hr : itemFails r = true := h r (by simp)
    have hrest : ∀ q ∈ rest, itemFails q = true := fun q hq => h q (by simp [hq])
    rcases r with msg | d
    · simp only [runSeqGo]
      split
      · split
        · rfl
        · split
          · rw [ih _ _ hrest]
          · rfl
      · rw [ih _ _ hrest]
    · have hs : isProgressSuccess d = false := by simpa [itemFails] using hr
      simp only [runSeqGo, hs, Bool.false_eq_true, if_false]
      split
      · split
        · rfl
        · split
          · rw [ih _ _ hrest]
          · rfl
      · rw [ih _ _ hrest]

/-- C10: success classification is fail-safe — false for a null payload, for a
payload with neither status nor state, for numeric status 3, and for any status
that neither parses to numeric 2 nor lower-cases to "success"/"complete"; and
the sequential executor counts zero successes whenever no item's final snapshot
classifies as a success. -/
theorem isProgressSuccess_fail_safe (d : ProgressData) (runs : List ItemRun)
    (opts : SeqOpts) (prompt : Nat → Bool) :
    isProgressSuccess none = false
    ∧ (rawStatus d = none → isProgressSuccess (some d) = false)
    ∧ (statusNumOf d = some 3 → isProgressSuccess (some d) = false)
    ∧ (statusNumOf d ≠ some 2 → statusStrOf d ≠ "success" → statusStrOf d ≠ "complete" →
        isProgressSuccess (some d) = false)
    ∧ ((∀ r ∈ runs, itemFails r = true) →
        (runSequentialInstall runs opts prompt).succeeded = 0) := by
  refine ⟨rfl, ?_, ?_, ?_, ?_⟩
  · intro h
    have h1 : statusNumOf d = none := by simp [statusNumOf, h]
    have h2 : statusStrOf d = "" := by simp [statusStrOf, h, jsToLower]
    simp [isProgressSuccess, h1, h2]
  · intro h
    simp [isProgressSuccess, h]
  · intro h2 hsucc hcomp
    have b2 : (statusNumOf d == some 2) = false := beq_eq_false_iff_ne.mpr h2
    have bs : (statusStrOf d == "success") = false := beq_eq_false_iff_ne.mpr hsucc
    have bc : (statusStrOf d == "complete") = false := beq_eq_false_iff_ne.mpr hcomp
    cases h3 : (statusNumOf d == some 3) with
    | true => simp [isProgressSuccess, b2, h3]
    | false => simp [isProgressSuccess, b2, h3, bs, bc]
  · intro h
    unfold runSequentialInstall
    rw [runSeqGo_no_success opts prompt _ runs 0 ⟨0, 0, 0⟩ h]

/-- C10 witness: a running-status payload is not a success, and a run of two
failing items (one thrown, one numeric-3) records zero successes. -/
theorem isProgressSuccess_fail_safe_witness :
    isProgressSuccess (some { status := some (.str "running") }) = false
    ∧ (runSequentialInstall [.threw "ECONNRESET", .ran (some { status := some (.num 3) })]
        ⟨false, true, true⟩ (fun _ => true)).succeeded = 0 :=
  ⟨(isProgressSuccess_fail_safe { status := some (.str "running") } [] ⟨false, true, true⟩
      (fun _ => true)).2.2.2.1 (by decide) (by decide) (by decide),
   (isProgressSuccess_fail_safe {} [.threw "ECONNRESET", .ran (some { status := some (.num 3) })]
      ⟨false, true, true⟩ (fun _ => true)).2.2.2.2 (by decide)⟩

/-- C7: the raw batch rollback credential never reaches the persisted history or
the log records in cleartext.  The entry and the records depend on the token
only through its one-way SHA-256 digest and its last-4-characters display hint
(first conjunct), and with those two derived fields blanked, runs differing only
in the raw token value produce identical history and logs (second conjunct). -/
theorem rollback_token_noninterference (id timestamp instanceUrl instanceHost : String)
    (profile : Option String) (packages : List PackageItem) (succeeded failed : Nat)
    (progressId : String) (resultsId : Option String) (t1 t2 : Option String) :
    (rollbackHashOf t1 = rollbackHashOf t2 → rollbackHintOf t1 = rollbackHintOf t2 →
      batchHistoryEntry id timestamp instanceUrl instanceHost profile packages
          succeeded failed progressId t1
        = batchHistoryEntry id timestamp instanceUrl instanceHost profile packages
            succeeded failed progressId t2
      ∧ batchLogRecords progressId resultsId packages succeeded failed t1
        = batchLogRecords progressId resultsId packages succeeded failed t2)
    ∧ eraseRollbackFields (batchHistoryEntry id timestamp instanceUrl instanceHost profile
        packages succeeded failed progressId t1)
      = eraseRollbackFields (batchHistoryEntry id timestamp instanceUrl instanceHost profile
          packages succeeded failed progressId t2)
    ∧ eraseLogHints (batchLogRecords progressId resultsId packages succeeded failed t1)
      = eraseLogHints (batchLogRecords progressId resultsId packages succeeded failed t2) := by
  refine ⟨fun hhash hhint => ⟨?_, ?_⟩, ?_, ?_⟩
  · simp [batchHistoryEntry, hhash, hhint]
  · simp [batchLogRecords, hhint]
  · simp [eraseRollbackFields, batchHistoryEntry]
  · simp [eraseLogHints, batchLogRecords]

/-- C7 witness: applied at a concrete token on both sides (hash and hint equal
by reflexivity), the history entry and log records coincide. -/
theorem rollback_token_noninterference_witness :
    batchHistoryEntry "id-1" "2026-01-01T00:00:00Z" "https://dev.example.com"
        "dev.example.com" none [] 2 0 "prog-1" (some "tok-abcd")
      = batchHistoryEntry "id-1" "2026-01-01T00:00:00Z" "https://dev.example.com"
          "dev.example.com" none [] 2 0 "prog-1" (some "tok-abcd")
    ∧ batchLogRecords "prog-1" none [] 2 0 (some "tok-abcd")
      = batchLogRecords "prog-1" none [] 2 0 (some "tok-abcd") :=
  (rollback_token_noninterference "id-1" "2026-01-01T00:00:00Z" "https://dev.example.com"
    "dev.example.com" none [] 2 0 "prog-1" none (some "tok-abcd") (some "tok-abcd")).1
    rfl rfl

/-- Helper: two strings with equal character lists are equal. -/
theorem string_data_inj {s t : String} (h : s.data = t.data) : s = t := by
  cases s
  cases t
  exact congrArg String.mk h

/-- Helper: sorting by scope is insensitive to the input order once scopes are
pairwise distinct — the scope-sorted permutation is unique. -/
theorem sortByScope_eq_of_perm (l1 l2 : List PackageItem)
    (hp : l1.Perm l2) (hnd : (l1.map (fun p => p.scope)).Nodup) :
    sortByScope l1 = sortByScope l2 := by
  have hs1 : List.Sorted scopeLe (sortByScope l1) := List.sorted_insertionSort scopeLe l1
  have hs2 : List.Sorted scopeLe (sortByScope l2) := List.sorted_insertionSort scopeLe l2
  have hp1 : (sortByScope l1).Perm l1 := List.perm_insertionSort scopeLe l1
  have hp2 : (sortByScope l2).Perm l2 := List.perm_insertionSort scopeLe l2
  have hperm : (sortByScope l1).Perm (sortByScope l2) := hp1.trans (hp.trans hp2.symm)
  have hnd1 : ((sortByScope l1).map (fun p => p.scope)).Nodup :=
    ((hp1.map (fun p => p.scope)).symm).nodup hnd
  have hnd2 : ((sortByScope l2).map (fun p => p.scope)).Nodup :=
    ((hperm.map (fun p => p.scope))).nodup hnd1
  have strictOf : ∀ (l : List PackageItem), List.Sorted scopeLe l →
      ((l.map (fun p => p.scope)).Nodup) → List.Sorted scopeLt l := by
    intro l hs hn
    unfold List.Nodup at hn
    rw [List.pairwise_map] at hn
    exact (hs.and hn).imp (fun hab =>
      lt_of_le_of_ne hab.1 (fun hd => hab.2 (string_data_inj hd)))
  exact List.eq_of_perm_of_sorted hperm (strictOf _ hs1 hnd1) (strictOf _ hs2 hnd2)

/-- C9: plan building is deterministic and order-insensitive — for any two
permutations of the same package set with pairwise-distinct scopes and the same
metadata inputs, buildManifest produces identical manifests (same scope-sorted
packages array and identical derived stats). -/
theorem buildManifest_order_insensitive (l1 l2 : List PackageItem) (instanceUrl : String)
    (profileName : Option String) (instanceVersion snbatchVersion createdAt : String)
    (hp : l1.Perm l2) (hnd : (l1.map (fun p => p.scope)).Nodup) :
    buildManifest l1 instanceUrl profileName instanceVersion snbatchVersion createdAt
      = buildManifest l2 instanceUrl profileName instanceVersion snbatchVersion createdAt := by
  have hsort := sortByScope_eq_of_perm l1 l2 hp hnd
  simp [buildManifest, hsort]

/-- C9 witness: swapping two concrete packages yields the identical manifest. -/
theorem buildManifest_order_insensitive_witness :
    buildManifest
        [{ scope := "x_b", name := "B", currentVersion := "1.0.0", targetVersion := "1.0.1",
           upgradeType := some "patch" },
         { scope := "x_a", name := "A", currentVersion := "1.0.0", targetVersion := "2.0.0",
           upgradeType := some "major" }]
        "https://dev.example.com" none "Unknown" "0.1.0" "2026-01-01T00:00:00Z"
      = buildManifest
          [{ scope := "x_a", name := "A", currentVersion := "1.0.0", targetVersion := "2.0.0",
             upgradeType := some "major" },
           { scope := "x_b", name := "B", currentVersion := "1.0.0", targetVersion := "1.0.1",
             upgradeType := some "patch" }]
          "https://dev.example.com" none "Unknown" "0.1.0" "2026-01-01T00:00:00Z" :=
  buildManifest_order_insensitive _ _ "https://dev.example.com" none "Unknown" "0.1.0"
    "2026-01-01T00:00:00Z" (by decide) (by decide)

/-- Helper: setting a key in the scope map leaves the key sequence unchanged
when the key is present, and appends it when absent. -/
theorem mapSet_keys (m : List (String × TargetApp)) (k : String) (v : TargetApp) :
    (mapSet m k v).map Prod.fst
      = if m.any (fun e => e.1 = k) then m.map Prod.fst else m.map Prod.fst ++ [k] := by
  unfold mapSet
  split
  · rw [List.map_map]
    refine List.map_congr_left ?_
    intro e _
    by_cases h : e.1 = k
    · simp [h]
    · simp [h]
  · simp

/-- Helper: map insertion preserves distinctness of the key sequence. -/
theorem mapSet_keys_nodup (m : List (String × TargetApp)) (k : String) (v : TargetApp)
    (h : (m.map Prod.fst).Nodup) : ((mapSet m k v).map Prod.fst).Nodup := by
  rw [mapSet_keys]
  split
  · exact h
  · rename_i hany
    rw [List.nodup_append]
    refine ⟨h, List.nodup_singleton k, ?_⟩
    intro a ha hb
    rcases List.mem_map.mp ha with ⟨e, he, rfl⟩
    have : e.1 = k := by simpa using hb
    exact hany (List.any_eq_true.mpr ⟨e, he, by simpa using this⟩)

/-- Helper: the JS Map built over the target list has pairwise-distinct keys,
so each distinct target scope owns exactly one map entry. -/
theorem buildTargetMap_keys_nodup (ts : List TargetApp) :
    ((buildTargetMap ts).map Prod.fst).Nodup := by
  have go : ∀ (us : List TargetApp) (m : List (String × TargetApp)),
      (m.map Prod.fst).Nodup →
      ((us.foldl (fun m a => mapSet m a.scope a) m).map Prod.fst).Nodup := by
    intro us
    induction us with
    | nil => intro m hm; simpa using hm
    | cons a us ih =>
      intro m hm
      exact ih (mapSet m a.scope a) (mapSet_keys_nodup m a.scope a hm)
  simpa [buildTargetMap] using go ts [] (by simp)

/-- C5: reconciliation verdicts.  The result has one entry per source item (in
order) plus one extra entry per distinct target scope absent from the source
plan; a source item gets skip/not_installed when its scope is absent on the
target, skip/already_current when the target's version compares equal to the
item's target version, include when the target is behind — flagged
version_mismatch exactly when the target's current version differs from the
item's recorded starting version — and skip/target_ahead when the target is
ahead; and the section-8 worked examples hold. -/
theorem reconcilePackages_verdicts (ms : List PackageItem) (ts : List TargetApp)
    (pkg : PackageItem) (t : TargetApp) (i : Nat) :
    ((reconcilePackages ms ts).length
      = ms.length + ((buildTargetMap ts).filter
          (fun e => !(ms.map (fun p => p.scope)).contains e.1)).length)
    ∧ (i < ms.length →
        (reconcilePackages ms ts)[i]?
          = (ms[i]?).map (fun p => reconcileOne p (mapGet (buildTargetMap ts) p.scope)))
    ∧ reconcileOne pkg none = ⟨pkg, none, "skip", "not_installed"⟩
    ∧ (compareVersions t.version pkg.targetVersion = 0 →
        reconcileOne pkg (some t) = ⟨pkg, some t.version, "skip", "already_current"⟩)
    ∧ (compareVersions t.version pkg.targetVersion = -1 →
        reconcileOne pkg (some t)
          = ⟨pkg, some t.version, "include",
              if t.version ≠ pkg.currentVersion then "version_mismatch" else "matched"⟩)
    ∧ (compareVersions t.version pkg.targetVersion = 1 →
        reconcileOne pkg (some t) = ⟨pkg, some t.version, "skip", "target_ahead"⟩)
    ∧ ((reconcilePackages ms ts).drop ms.length).map (fun e => (e.pkg.scope, e.action, e.reason))
        = ((buildTargetMap ts).filter
            (fun e => !(ms.map (fun p => p.scope)).contains e.1)).map
              (fun e => (e.1, "extra", "extra_available"))
    ∧ ((buildTargetMap ts).map Prod.fst).Nodup
    ∧ ((reconcilePackages
          [⟨"x", "X", "1.0.0", "1.1.0", none, none⟩]
          [⟨"x", "X", "1.1.0", none⟩]).map (fun e => (e.action, e.reason))
        = [("skip", "already_current")]
      ∧ (reconcilePackages
          [⟨"x", "X", "1.0.0", "1.1.0", none, none⟩]
          [⟨"x", "X", "1.0.0", none⟩]).map (fun e => (e.action, e.reason))
        = [("include", "matched")]
      ∧ (reconcilePackages
          [⟨"x", "X", "1.0.0", "1.1.0", none, none⟩]
          [⟨"x", "X", "0.9.0", none⟩]).map (fun e => (e.action, e.reason))
        = [("include", "version_mismatch")]
      ∧ (reconcilePackages
          [⟨"x", "X", "1.0.0", "1.1.0", none, none⟩] []).map (fun e => (e.action, e.reason))
        = [("skip", "not_installed")]
      ∧ (reconcilePackages
          [⟨"y", "Y", "1.0.0", "2.0.0", none, none⟩]
          [⟨"y", "Y", "3.0.0", none⟩]).map (fun e => (e.action, e.reason))
        = [("skip", "target_ahead")]) := by
  refine ⟨?_, ?_, rfl, ?_, ?_, ?_, ?_, buildTargetMap_keys_nodup ts,
    by decide, by decide, by decide, by decide, by decide⟩
  · simp [reconcilePackages]
  · intro hi
    simp only [reconcilePackages]
    rw [List.getElem?_append, if_pos (by simpa using hi), List.getElem?_map]
  · intro h
    simp [reconcileOne, h]
  · intro h
    simp [reconcileOne, h]
  · intro h
    simp [reconcileOne, h]
  · simp only [reconcilePackages]
    rw [List.drop_left' (by simp)]
    rw [List.map_map]
    refine List.map_congr_left ?_
    intro e _
    simp [extraEntry]

/-- C5 witness: a two-item plan against a target with one behind scope, one
unknown-to-the-plan scope (duplicated in the target list) and one missing
scope — entry lookups and the single extra verdict, concretely. -/
theorem reconcilePackages_verdicts_witness :
    (reconcilePackages
        [⟨"x", "X", "1.0.0", "1.1.0", none, none⟩, ⟨"y", "Y", "1.0.0", "2.0.0", none, none⟩]
        [⟨"x", "X", "1.0.0", none⟩, ⟨"z", "Z", "0.5.0", none⟩, ⟨"z", "Z", "0.6.0", none⟩])[0]?
      = some (reconcileOne ⟨"x", "X", "1.0.0", "1.1.0", none, none⟩
          (some ⟨"x", "X", "1.0.0", none⟩))
    ∧ reconcileOne ⟨"x", "X", "1.0.0", "1.1.0", none, none⟩ (some ⟨"x", "X", "1.0.0", none⟩)
      = ⟨⟨"x", "X", "1.0.0", "1.1.0", none, none⟩, some "1.0.0", "include", "matched"⟩
    ∧ ((reconcilePackages
        [⟨"x", "X", "1.0.0", "1.1.0", none, none⟩, ⟨"y", "Y", "1.0.0", "2.0.0", none, none⟩]
        [⟨"x", "X", "1.0.0", none⟩, ⟨"z", "Z", "0.5.0", none⟩, ⟨"z", "Z", "0.6.0", none⟩]).drop
          2).map (fun e => (e.pkg.scope, e.action, e.reason))
      = [("z", "extra", "extra_available")] := by
  refine ⟨?_, ?_, ?_⟩
  · have h := (reconcilePackages_verdicts
      [⟨"x", "X", "1.0.0", "1.1.0", none, none⟩, ⟨"y", "Y", "1.0.0", "2.0.0", none, none⟩]
      [⟨"x", "X", "1.0.0", none⟩, ⟨"z", "Z", "0.5.0", none⟩, ⟨"z", "Z", "0.6.0", none⟩]
      ⟨"x", "X", "1.0.0", "1.1.0", none, none⟩ ⟨"x", "X", "1.0.0", none⟩ 0).2.1
      (by decide)
    rw [h]
    decide
  · have h := (reconcilePackages_verdicts [] []
      ⟨"x", "X", "1.0.0", "1.1.0", none, none⟩ ⟨"x", "X", "1.0.0", none⟩ 0).2.2.2.2.1
      (by decide)
    rw [h]
    decide
  · have h := (reconcilePackages_verdicts
      [⟨"x", "X", "1.0.0", "1.1.0", none, none⟩, ⟨"y", "Y", "1.0.0", "2.0.0", none, none⟩]
      [⟨"x", "X", "1.0.0", none⟩, ⟨"z", "Z", "0.5.0", none⟩, ⟨"z", "Z", "0.6.0", none⟩]
      ⟨"x", "X", "1.0.0", "1.1.0", none, none⟩ ⟨"x", "X", "1.0.0", none⟩ 0).2.2.2.2.2.2.1
    rw [show (2 : Nat) = ([⟨"x", "X", "1.0.0", "1.1.0", none, none⟩,
      ⟨"y", "Y", "1.0.0", "2.0.0", none, none⟩] : List PackageItem).length from rfl]
    rw [h]
    decide

end Snbatch
